import Mathlib

/-!
Shallow embedding of `nvenc_availability.py` (NVENC availability probing for
NVIDIA GPUs) together with proofs about its behaviour.

The Python module shells out to external processes (`where`, `nvidia-smi`);
those process boundaries are modelled by explicit result records
(`ProcResult`, `SysEnv`).  A Python function that can raise an exception is
modelled as returning `Option` (`none` = an exception propagates).  Python
strings are modelled as `String` / `List Char`; Python `str.split`,
`str.strip` and the two regular expressions of the module are implemented
directly on `List Char` below, following the source regexes character class
by character class.
-/

/-- Whitespace characters removed by Python `str.strip()` (ASCII range). -/
def isPyWhitespace (c : Char) : Bool :=
  c = ' ' || c = '\t' || c = '\n' || c = '\r' || c = '\x0b' || c = '\x0c'

/-- Model of Python `str.strip()` on a list of characters: drop whitespace
from both ends. -/
def stripChars (cs : List Char) : List Char :=
  ((cs.dropWhile isPyWhitespace).reverse.dropWhile isPyWhitespace).reverse

/-- Model of Python `str.split(sep)` for a one-character separator: always
returns at least one (possibly empty) piece, like Python's `split`. -/
def splitOnChar (sep : Char) : List Char → List (List Char)
  | [] => [[]]
  | c :: cs =>
    if c = sep then [] :: splitOnChar sep cs
    else
      match splitOnChar sep cs with
      | [] => [[c]]
      | l :: ls => (c :: l) :: ls

/-- Consume an expected literal pattern from the front of the input
(`none` when the input does not start with the pattern). -/
def stripPrefixList : List Char → List Char → Option (List Char)
  | [], cs => some cs
  | _ :: _, [] => none
  | p :: ps, c :: cs => if p = c then stripPrefixList ps cs else none

/-- Model of the Python substring test `sub in s` on character lists. -/
def containsSeq (sub : List Char) : List Char → Bool
  | [] => sub.isEmpty
  | c :: cs => sub.isPrefixOf (c :: cs) || containsSeq sub cs

/-- Model of the Python substring test `sub in s` on strings. -/
def strContains (s sub : String) : Bool :=
  containsSeq sub.toList s.toList

/-- Value of a digit string, as computed by Python `int` on a string of
decimal digits. -/
def digitsToNat (ds : List Char) : Nat :=
  ds.foldl (fun a c => a * 10 + (c.toNat - '0'.toNat)) 0

/-- Model of Python `min` over a list of integers: raises (`none`) on the
empty list. -/
def listMin : List Int → Option Int
  | [] => none
  | x :: xs => some (xs.foldl min x)

/-- Model of Python `max` over a list of integers: raises (`none`) on the
empty list. -/
def listMax : List Int → Option Int
  | [] => none
  | x :: xs => some (xs.foldl max x)

/-- Outcome of one external process invocation: exit code plus decoded
standard output and standard error text. -/
structure ProcResult where
  returncode : Int
  stdout : String
  stderr : String
deriving DecidableEq, Repr

/-- Embedding of `find_command`: given the outcome of running the OS
command locator (`where cmd`), return `None` on non-zero exit, otherwise
the first line of its output, stripped.  The source also guards
`len(commands) == 0`, mirrored by the `[]` branch of the match. -/
def find_command (whereResult : ProcResult) : Option String :=
  if whereResult.returncode ≠ 0 then none
  else
    match (splitOnChar '\n' whereResult.stdout.toList).map stripChars with
    | [] => none
    | c :: _ => some (String.mk c)

/-- Record parsed from one line of `nvidia-smi -L` output, mirroring the
`NvidiaGPU` namedtuple `(index, name, uuid)` of the source. -/
structure NvidiaGPU where
  index : Int
  name : String
  uuid : String
deriving DecidableEq, Repr

/-- Character class `[a-zA-Z0-9 -]` of the source's `NAME_PATTERN`. -/
def isNameChar (c : Char) : Bool :=
  c.isAlphanum || c = ' ' || c = '-'

/-- Character class `[a-zA-Z0-9-]` of the source's `NAME_PATTERN`. -/
def isUuidChar (c : Char) : Bool :=
  c.isAlphanum || c = '-'

/-- Matching of the source regex
`GPU (\d+): ([a-zA-Z0-9 -]+) \(UUID: ([a-zA-Z0-9-]+)\)` against the front
of the input (Python `re.match`: anchored at the start only, trailing
input ignored).  Because `(`, `)` and `:` do not belong to the adjacent
character classes, the regex engine's greedy matching with backtracking is
deterministic here: each `+` group consumes the maximal run of its class,
except the name group, which gives back exactly one trailing space to the
literal ` \(` that follows it. -/
def matchGpuLine (cs : List Char) : Option (Nat × List Char × List Char) :=
  match stripPrefixList "GPU ".toList cs with
  | none => none
  | some cs1 =>
    match cs1.takeWhile Char.isDigit, cs1.dropWhile Char.isDigit with
    | [], _ => none
    | dchar :: ds, rest1 =>
      match stripPrefixList ": ".toList rest1 with
      | none => none
      | some cs2 =>
        match (cs2.takeWhile isNameChar).getLast? with
        | some ' ' =>
          match (cs2.takeWhile isNameChar).dropLast, cs2.dropWhile isNameChar with
          | [], _ => none
          | nm0 :: nms, rest2 =>
            match stripPrefixList "(UUID: ".toList rest2 with
            | none => none
            | some cs3 =>
              match cs3.takeWhile isUuidChar, cs3.dropWhile isUuidChar with
              | [], _ => none
              | uchar :: us, rest3 =>
                match stripPrefixList ")".toList rest3 with
                | none => none
                | some _ => some (digitsToNat (dchar :: ds), nm0 :: nms, uchar :: us)
        | _ => none

/-- The sentinel record `cls(-1, "<unknown>", "0")` produced by
`NvidiaGPU.parse` for unparseable lines. -/
def NvidiaGPU.sentinel : NvidiaGPU :=
  ⟨-1, "<unknown>", "0"⟩

/-- Embedding of `NvidiaGPU.parse` on a character list: strip the line,
match it against `NAME_PATTERN`, and fall back to the sentinel record on
match failure. -/
def NvidiaGPU.parseChars (cs : List Char) : NvidiaGPU :=
  match matchGpuLine (stripChars cs) with
  | some (i, nm, uu) => ⟨(i : Int), String.mk nm, String.mk uu⟩
  | none => NvidiaGPU.sentinel

/-- Embedding of `NvidiaGPU.parse` on strings. -/
def NvidiaGPU.parse (line : String) : NvidiaGPU :=
  NvidiaGPU.parseChars line.toList

/-- Modelled from the spec: the reference dataset module `nvenc_dataset`
(imported by the source as `NVENC`) is not part of the sources under
verification; per the spec it consists of four static mappings — `NONE`
and `AMBIG` (model name → marker, so only key membership matters),
`COMPAT` (model name → ordered sequence of core-type tags) and
`NVENC_CORES_H264` (core-type tag → integer count of NVENC cores).  The
embedding therefore takes the dataset as an explicit parameter. -/
structure Dataset where
  noneHas : String → Bool
  ambigHas : String → Bool
  compat : String → Option (List String)
  coresH264 : String → Option Int

/-- Invariant stated by the spec for the reference dataset: a model name
appears in at most one of `NONE`, `AMBIG`, `COMPAT`. -/
def Dataset.DisjointKeys (ds : Dataset) : Prop :=
  ∀ name : String,
    (ds.noneHas name = true → ds.ambigHas name = false ∧ ds.compat name = none) ∧
    (ds.ambigHas name = true → ds.compat name = none)

/-- The brand test of the first rule of `has_nvenc_h264`:
`("Quadro" in name) or ("NVS" in name) or ("Tesla" in name)`. -/
def brandOverride (name : String) : Bool :=
  strContains name "Quadro" || strContains name "NVS" || strContains name "Tesla"

/-- Embedding of `NvidiaGPU.has_nvenc_h264`, parameterised by the
reference dataset.  Returns `none` exactly where the Python code raises:
`min`/`max` over the empty list of per-tag core counts. -/
def NvidiaGPU.has_nvenc_h264 (ds : Dataset) (self : NvidiaGPU) : Option Bool :=
  if brandOverride self.name then some true
  else if ds.noneHas self.name then some false
  else if ds.ambigHas self.name then some true
  else
    match ds.compat self.name with
    | none => some false
    | some tags =>
      match listMin (tags.map fun t => (ds.coresH264 t).getD 0),
            listMax (tags.map fun t => (ds.coresH264 t).getD 0) with
      | some _, some maxCores => some (decide (maxCores > 0))
      | _, _ => none

/-- Outcomes of the three external process invocations performed by
`number_of_nvenc_gpus`: `where nvidia-smi`, `nvidia-smi`, and
`nvidia-smi -L`. -/
structure SysEnv where
  whereResult : ProcResult
  smiResult : ProcResult
  smiListResult : ProcResult
deriving DecidableEq, Repr

/-- Stripped, non-blank lines of a process's standard output, as built by
the source's line comprehensions. -/
def cleanLines (stdout : String) : List (List Char) :=
  ((splitOnChar '\n' stdout.toList).map stripChars).filter (fun cs => !cs.isEmpty)

/-- Attempt of the regex `Driver Version: (\d+(\.\d+)?)` at the very start
of the input, returning capture group 1: a maximal digit run, optionally
followed by a dot and a second maximal digit run. -/
def versionAt (cs : List Char) : Option (List Char) :=
  match stripPrefixList "Driver Version: ".toList cs with
  | none => none
  | some rest =>
    match rest.takeWhile Char.isDigit, rest.dropWhile Char.isDigit with
    | [], _ => none
    | dchar :: ds, rest1 =>
      match rest1 with
      | '.' :: r2 =>
        match r2.takeWhile Char.isDigit with
        | [] => some (dchar :: ds)
        | echar :: es => some ((dchar :: ds) ++ '.' :: echar :: es)
      | _ => some (dchar :: ds)

/-- Python `re.search` of the driver-version pattern within one line:
try every start position from left to right. -/
def findVersion : List Char → Option (List Char)
  | [] => none
  | c :: cs =>
    match versionAt (c :: cs) with
    | some v => some v
    | none => findVersion cs

/-- First line of the given lines on which the driver-version pattern
matches, mirroring the `for line in out: ... break` loop. -/
def firstVersion : List (List Char) → Option (List Char)
  | [] => none
  | l :: ls =>
    match findVersion l with
    | some v => some v
    | none => firstVersion ls

/-- Driver-version capture extracted from the full standard output of
`nvidia-smi`. -/
def driverVersionOf (stdout : String) : Option (List Char) :=
  firstVersion (cleanLines stdout)

/-- Embedding of `major, minor = [int(digits) for digits in version.split(".")]`:
the unpacking raises (`none`) unless the split yields exactly two pieces. -/
def parseMajorMinor (v : List Char) : Option (Int × Int) :=
  match (splitOnChar '.' v).map (fun p => (digitsToNat p : Int)) with
  | [a, b] => some (a, b)
  | _ => none

/-- GPU records parsed from the standard output of `nvidia-smi -L`:
one record per stripped non-blank line. -/
def gpuRecordsOf (stdout : String) : List NvidiaGPU :=
  (cleanLines stdout).map NvidiaGPU.parseChars

/-- Count of records for which `has_nvenc_h264` returns `True`; a raise
(`none`) in any call propagates, as in the source's list comprehension. -/
def countCapable (ds : Dataset) : List NvidiaGPU → Option Nat
  | [] => some 0
  | g :: gs =>
    match NvidiaGPU.has_nvenc_h264 ds g with
    | none => none
    | some b => (countCapable ds gs).map (fun n => if b then n + 1 else n)

/-- GPU-enumeration phase of `number_of_nvenc_gpus`: run `nvidia-smi -L`,
return 0 on non-zero exit, otherwise count the capable parsed records. -/
def enumerateCount (ds : Dataset) (res : ProcResult) : Option Nat :=
  if res.returncode ≠ 0 then some 0
  else countCapable ds (gpuRecordsOf res.stdout)

/-- Embedding of `number_of_nvenc_gpus`, parameterised by the reference
dataset and the outcomes of the external process invocations.  `none`
models an uncaught Python exception. -/
def number_of_nvenc_gpus (ds : Dataset) (env : SysEnv) : Option Nat :=
  match find_command env.whereResult with
  | none => some 0
  | some _ =>
    if env.smiResult.returncode ≠ 0 then some 0
    else
      match driverVersionOf env.smiResult.stdout with
      | none => some 0
      | some v =>
        match parseMajorMinor v with
        | none => none
        | some mm =>
          if mm.1 < 450 then some 0
          else enumerateCount ds env.smiListResult

/-! ### Example datasets and environments used by witnesses and counterexamples -/

/-- A dataset with all four mappings empty. -/
def dsEmpty : Dataset := ⟨fun _ => false, fun _ => false, fun _ => none, fun _ => none⟩

/-- A dataset whose `NONE` mapping contains a Tesla-branded model name. -/
def dsC2 : Dataset :=
  ⟨fun n => n == "Tesla C2050", fun _ => false, fun _ => none, fun _ => none⟩

/-- The dataset `dsC2` satisfies the disjointness invariant the spec states
for the reference dataset. -/
theorem dsC2_disjointKeys : dsC2.DisjointKeys := by
  intro name
  exact ⟨fun _ => ⟨rfl, rfl⟩, fun h => Bool.noConfusion h⟩

/-- A dataset whose `NONE` mapping contains a non-branded model name. -/
def dsAmend : Dataset :=
  ⟨fun n => n == "GeForce 210", fun _ => false, fun _ => none, fun _ => none⟩

/-- A dataset with one `COMPAT` entry whose tag list mixes a registered
core type (1 core) and an unregistered one (defaulting to 0 cores). -/
def dsCompatMix : Dataset :=
  ⟨fun _ => false, fun _ => false,
   fun n => if n == "GeForce RTX 3080" then some ["GA102", "unknown-tag"] else none,
   fun t => if t == "GA102" then some 1 else none⟩

/-- A dataset with one `COMPAT` entry mapped to an empty tag list. -/
def dsEmptyTags : Dataset :=
  ⟨fun _ => false, fun _ => false,
   fun n => if n == "Mystery GPU" then some [] else none, fun _ => none⟩

/-- Process outcomes where `nvidia-smi` reports a driver version with no
minor component. -/
def envVersionNoDot : SysEnv :=
  ⟨⟨0, "C:\\Windows\\System32\\nvidia-smi.exe", ""⟩,
   ⟨0, "Driver Version: 450", ""⟩, ⟨0, "", ""⟩⟩

/-- Process outcomes with an old driver (440.10) and a failing listing run. -/
def envOld : SysEnv :=
  ⟨⟨0, "C:\\nvidia-smi.exe", ""⟩, ⟨0, "Driver Version: 440.10", ""⟩,
   ⟨1, "ignored", "err"⟩⟩

/-- Process outcomes with a new driver (450.00) and one listed GPU. -/
def envNew : SysEnv :=
  ⟨⟨0, "C:\\nvidia-smi.exe", ""⟩, ⟨0, "Driver Version: 450.00", ""⟩,
   ⟨0, "GPU 0: Quadro P1000 (UUID: GPU-1)", ""⟩⟩

/-! ### Claims -/

/-- C1: for a GPU record whose name is a key of `COMPAT` and that matched
none of the earlier rules (no brand substring, not in `NONE`, not in
`AMBIG`), `has_nvenc_h264` looks up each tag's core count in
`NVENC_CORES_H264` (0 for an absent tag) and returns exactly
`max_cores > 0`. -/
theorem c1_compat_max_rule (ds : Dataset) (g : NvidiaGPU) (tags : List String) (m : Int)
    (hb : brandOverride g.name = false)
    (hn : ds.noneHas g.name = false)
    (ha : ds.ambigHas g.name = false)
    (hc : ds.compat g.name = some tags)
    (hm : listMax (tags.map fun t => (ds.coresH264 t).getD 0) = some m) :
    NvidiaGPU.has_nvenc_h264 ds g = some (decide (m > 0)) := by
  cases tags with
  | nil => simp [listMax] at hm
  | cons t ts =>
    simp only [List.map_cons, listMax, Option.some.injEq] at hm
    simp [NvidiaGPU.has_nvenc_h264, hb, hn, ha, hc, listMin, listMax, hm]

/-- C1 witness: a concrete `COMPAT` entry with tags mapping to counts 1
and (by the absent-tag default) 0; the maximum is 1, so the result is
`True`. -/
theorem c1_compat_max_rule_witness :
    dsCompatMix.compat "GeForce RTX 3080" = some ["GA102", "unknown-tag"] ∧
    NvidiaGPU.has_nvenc_h264 dsCompatMix ⟨0, "GeForce RTX 3080", "u"⟩ = some true :=
  ⟨by decide,
   c1_compat_max_rule dsCompatMix ⟨0, "GeForce RTX 3080", "u"⟩
     ["GA102", "unknown-tag"] 1 (by decide) rfl rfl (by decide) (by decide)⟩

/-- C2 counterexample: the claim "every record whose name is a key of
`NONE` yields `False`" fails when the `NONE` key contains a brand
substring, because the brand override is evaluated first: with
"Tesla C2050" a key of `NONE`, the function returns `True`. -/
theorem c2_none_counterexample :
    dsC2.noneHas "Tesla C2050" = true ∧
    NvidiaGPU.has_nvenc_h264 dsC2 ⟨0, "Tesla C2050", "GPU-0"⟩ = some true := by
  constructor <;> decide

/-- C2 (amended): for every GPU record whose name is a key of `NONE` and
contains none of the substrings "Quadro", "NVS", "Tesla",
`has_nvenc_h264` returns `False`. -/
theorem c2_none_amended (ds : Dataset) (g : NvidiaGPU)
    (hb : brandOverride g.name = false)
    (hn : ds.noneHas g.name = true) :
    NvidiaGPU.has_nvenc_h264 ds g = some false := by
  simp [NvidiaGPU.has_nvenc_h264, hb, hn]

/-- C2 (amended) witness: a non-branded `NONE` key yields `False`. -/
theorem c2_none_amended_witness :
    brandOverride "GeForce 210" = false ∧
    NvidiaGPU.has_nvenc_h264 dsAmend ⟨0, "GeForce 210", "GPU-0"⟩ = some false :=
  ⟨by decide,
   c2_none_amended dsAmend ⟨0, "GeForce 210", "GPU-0"⟩ (by decide) (by decide)⟩

/-- C3: every GPU record whose name contains "Quadro", "NVS" or "Tesla"
as a substring yields `True`, for every dataset — in particular
regardless of whether the name is a key of `NONE`, `AMBIG` or `COMPAT`. -/
theorem c3_brand_override (ds : Dataset) (g : NvidiaGPU)
    (h : strContains g.name "Quadro" = true ∨ strContains g.name "NVS" = true ∨
         strContains g.name "Tesla" = true) :
    NvidiaGPU.has_nvenc_h264 ds g = some true := by
  have hb : brandOverride g.name = true := by
    rcases h with h | h | h <;> simp [brandOverride, h]
  simp [NvidiaGPU.has_nvenc_h264, hb]

/-- C3 witness: a Tesla-branded name yields `True` even though it is a key
of the `NONE` mapping of the dataset used. -/
theorem c3_brand_override_witness :
    strContains "Tesla C2050" "Tesla" = true ∧
    NvidiaGPU.has_nvenc_h264 dsC2 ⟨1, "Tesla C2050", "GPU-1"⟩ = some true :=
  ⟨by decide,
   c3_brand_override dsC2 ⟨1, "Tesla C2050", "GPU-1"⟩ (Or.inr (Or.inr (by decide)))⟩

/-- C4: a GPU record whose name contains no brand substring and is a key
of none of `NONE`, `AMBIG`, `COMPAT` yields `False`. -/
theorem c4_unregistered (ds : Dataset) (g : NvidiaGPU)
    (hb : brandOverride g.name = false)
    (hn : ds.noneHas g.name = false)
    (ha : ds.ambigHas g.name = false)
    (hc : ds.compat g.name = none) :
    NvidiaGPU.has_nvenc_h264 ds g = some false := by
  simp [NvidiaGPU.has_nvenc_h264, hb, hn, ha, hc]

/-- C4 witness: an unregistered, non-branded name yields `False`. -/
theorem c4_unregistered_witness :
    brandOverride "GeForce GT 1030" = false ∧
    NvidiaGPU.has_nvenc_h264 dsEmpty ⟨0, "GeForce GT 1030", "u"⟩ = some false :=
  ⟨by decide,
   c4_unregistered dsEmpty ⟨0, "GeForce GT 1030", "u"⟩ (by decide) rfl rfl rfl⟩

/-- C5: the claim that `number_of_nvenc_gpus` never raises fails on the
code: the driver-version regex makes the minor component optional
(`(\d+(\.\d+)?)`), but the subsequent
`major, minor = [int(digits) for digits in version.split(".")]` unpacks
exactly two pieces, so stdout containing `Driver Version: 450` (no dot)
raises `ValueError`.  The embedding returns `none` (= exception) there,
for every dataset. -/
theorem c5_unpack_raises (ds : Dataset) :
    number_of_nvenc_gpus ds envVersionNoDot = none := rfl

/-- C9: with no earlier rule matching and the name registered in `COMPAT`,
the function raises exactly when the entry's tag list is empty, because
Python `min`/`max` over the resulting empty count list raise
`ValueError`; it is total on `COMPAT` entries with non-empty tag lists. -/
theorem c9_empty_tags_raise (ds : Dataset) (g : NvidiaGPU) (tags : List String)
    (hb : brandOverride g.name = false)
    (hn : ds.noneHas g.name = false)
    (ha : ds.ambigHas g.name = false)
    (hc : ds.compat g.name = some tags) :
    NvidiaGPU.has_nvenc_h264 ds g = none ↔ tags = [] := by
  cases tags <;>
    simp [NvidiaGPU.has_nvenc_h264, hb, hn, ha, hc, listMin, listMax]

/-- C9 witness: a `COMPAT` entry with an empty tag list makes the
function raise (`none`). -/
theorem c9_empty_tags_raise_witness :
    NvidiaGPU.has_nvenc_h264 dsEmptyTags ⟨0, "Mystery GPU", "u"⟩ = none :=
  (c9_empty_tags_raise dsEmptyTags ⟨0, "Mystery GPU", "u"⟩ []
    (by decide) rfl rfl (by decide)).mpr rfl

/-- Python `split` never yields an empty list of pieces. -/
theorem splitOnChar_ne_nil (sep : Char) (cs : List Char) : splitOnChar sep cs ≠ [] := by
  cases cs with
  | nil => simp [splitOnChar]
  | cons c cs =>
    by_cases h : c = sep
    · simp [splitOnChar, h]
    · simp only [splitOnChar, h, if_false]
      rcases h2 : splitOnChar sep cs with _ | ⟨l, ls⟩ <;> simp

/-- When the locator exits with code 0, `find_command` returns some path
string (the guard `len(commands) == 0` can never fire, because Python
`split` always yields at least one piece). -/
theorem find_command_of_ok (res : ProcResult) (h : res.returncode = 0) :
    ∃ s, find_command res = some s := by
  unfold find_command
  rw [if_neg (by simp [h])]
  rcases heq : (splitOnChar '\n' res.stdout.toList).map stripChars with _ | ⟨c, rest⟩
  · exact absurd (List.map_eq_nil_iff.mp heq) (splitOnChar_ne_nil _ _)
  · exact ⟨String.mk c, rfl⟩

/-- C6: when the locator and the first `nvidia-smi` run succeed and the
first line matching the driver-version pattern parses to
(`mjr`, `mnr`), then: if `mjr < 450` the function returns 0 whatever the
GPU-listing run would produce (so no enumeration is consulted), and if
`mjr ≥ 450` the result is exactly that of the GPU-enumeration phase. -/
theorem c6_driver_version_gate (ds : Dataset) (env : SysEnv) (mjr mnr : Int) (v : List Char)
    (hw : env.whereResult.returncode = 0)
    (hr : env.smiResult.returncode = 0)
    (hv : driverVersionOf env.smiResult.stdout = some v)
    (hp : parseMajorMinor v = some (mjr, mnr)) :
    (mjr < 450 → ∀ lr : ProcResult,
      number_of_nvenc_gpus ds { env with smiListResult := lr } = some 0) ∧
    (450 ≤ mjr → number_of_nvenc_gpus ds env = enumerateCount ds env.smiListResult) := by
  obtain ⟨s, hs⟩ := find_command_of_ok env.whereResult hw
  constructor
  · intro hlt lr
    simp [number_of_nvenc_gpus, hs, hr, hv, hp, hlt]
  · intro hge
    have hnlt : ¬mjr < 450 := not_lt.mpr hge
    simp [number_of_nvenc_gpus, hs, hr, hv, hp, hnlt]

/-- C6 witness: driver version 440.10 yields 0 even though the listing
run fails (it is never consulted); driver version 450.00 proceeds to the
enumeration phase. -/
theorem c6_driver_version_gate_witness :
    number_of_nvenc_gpus dsEmpty envOld = some 0 ∧
    number_of_nvenc_gpus dsEmpty envNew = enumerateCount dsEmpty envNew.smiListResult := by
  constructor
  · exact (c6_driver_version_gate dsEmpty envOld 440 10 "440.10".toList
      rfl rfl (by decide) (by decide)).1 (by decide) envOld.smiListResult
  · exact (c6_driver_version_gate dsEmpty envNew 450 0 "450.00".toList
      rfl rfl (by decide) (by decide)).2 (by decide)

/-- C7: the well-formed example line round-trips into the expected record;
every line on which the pattern fails maps to the sentinel record
`(-1, "<unknown>", "0")`; the sentinel is kept in the enumerated list (not
dropped); and, for a dataset in which "<unknown>" is no key of any
mapping, the sentinel is never capable. -/
theorem c7_parse_roundtrip_and_sentinel :
    NvidiaGPU.parse "GPU 0: GeForce RTX 3080 (UUID: GPU-1234abcd)" =
      ⟨0, "GeForce RTX 3080", "GPU-1234abcd"⟩ ∧
    (∀ line : String, matchGpuLine (stripChars line.toList) = none →
      NvidiaGPU.parse line = NvidiaGPU.sentinel) ∧
    gpuRecordsOf "GPU 0: GeForce RTX 3080 (UUID: GPU-1234abcd)\nmalformed line without uuid" =
      [⟨0, "GeForce RTX 3080", "GPU-1234abcd"⟩, NvidiaGPU.sentinel] ∧
    (∀ ds : Dataset, ds.noneHas "<unknown>" = false → ds.ambigHas "<unknown>" = false →
      ds.compat "<unknown>" = none →
      NvidiaGPU.has_nvenc_h264 ds NvidiaGPU.sentinel = some false) := by
  refine ⟨by decide, ?_, by decide, ?_⟩
  · intro line h
    simp only [String.toList] at h
    simp [NvidiaGPU.parse, NvidiaGPU.parseChars, String.toList, h]
  · intro ds h1 h2 h3
    have hb : brandOverride "<unknown>" = false := by decide
    simp [NvidiaGPU.has_nvenc_h264, NvidiaGPU.sentinel, hb, h1, h2, h3]

/-- C7 witness: the spec's malformed example (missing the UUID clause)
maps to the sentinel, and the sentinel is not capable under a dataset
without an "<unknown>" key. -/
theorem c7_witness :
    NvidiaGPU.parse "GPU 0: GeForce RTX 3080" = NvidiaGPU.sentinel ∧
    NvidiaGPU.has_nvenc_h264 dsEmpty NvidiaGPU.sentinel = some false :=
  ⟨c7_parse_roundtrip_and_sentinel.2.1 "GPU 0: GeForce RTX 3080" (by decide),
   c7_parse_roundtrip_and_sentinel.2.2.2 dsEmpty rfl rfl rfl⟩

/-- C8: the claim that `find_command` returns `None` when the locator
returns no matches fails on the code: `"".split("\n")` is `[""]`, so the
`len(commands) == 0` guard never fires, and on exit code 0 with empty
stdout the function returns the empty string instead of `None` (the
non-zero-exit half of the claim does hold). -/
theorem c8_empty_stdout_bug :
    find_command ⟨0, "", ""⟩ = some "" ∧ find_command ⟨1, "", ""⟩ = none := by
  constructor <;> decide

/-! ### Lemmas for the anchored-prefix property of `NAME_PATTERN` (C10) -/

/-- Consuming a literal pattern from an input that starts with it yields
the remainder. -/
theorem stripPrefixList_same (p rest : List Char) :
    stripPrefixList p (p ++ rest) = some rest := by
  induction p with
  | nil => rfl
  | cons x xs ih => simp [stripPrefixList, ih]

/-- A `takeWhile` over a run of satisfying characters followed by a
non-satisfying one takes exactly the run. -/
theorem takeWhile_middle (p : Char → Bool) (a : List Char) (b : Char) (rest : List Char)
    (ha : ∀ c ∈ a, p c = true) (hb : p b = false) :
    (a ++ b :: rest).takeWhile p = a := by
  induction a with
  | nil => simp [List.takeWhile_cons, hb]
  | cons x xs ih =>
    have hx : p x = true := ha x (List.mem_cons_self x xs)
    simp [List.takeWhile_cons, hx,
      ih (fun c hc => ha c (List.mem_cons_of_mem x hc))]

/-- A `dropWhile` over a run of satisfying characters followed by a
non-satisfying one drops exactly the run. -/
theorem dropWhile_middle (p : Char → Bool) (a : List Char) (b : Char) (rest : List Char)
    (ha : ∀ c ∈ a, p c = true) (hb : p b = false) :
    (a ++ b :: rest).dropWhile p = b :: rest := by
  induction a with
  | nil => simp [List.dropWhile_cons, hb]
  | cons x xs ih =>
    have hx : p x = true := ha x (List.mem_cons_self x xs)
    simp [List.dropWhile_cons, hx,
      ih (fun c hc => ha c (List.mem_cons_of_mem x hc))]

/-- Deterministic reduction of the `NAME_PATTERN` match on an input whose
prefix is a well-formed GPU line: each `+` group takes the maximal run of
its class (backtracking returns exactly the name group's trailing space),
and any trailing input after the closing parenthesis is left unread. -/
theorem matchGpuLine_core (d n u rest : List Char)
    (hdall : ∀ c ∈ d, c.isDigit = true)
    (hnall : ∀ c ∈ n, isNameChar c = true)
    (huall : ∀ c ∈ u, isUuidChar c = true)
    (hd : d ≠ []) (hn : n ≠ []) (hu : u ≠ []) :
    matchGpuLine ('G' :: 'P' :: 'U' :: ' ' ::
        (d ++ ':' :: ' ' :: (n ++ ' ' :: '(' :: 'U' :: 'U' :: 'I' :: 'D' :: ':' :: ' ' ::
          (u ++ ')' :: rest)))) = some (digitsToNat d, n, u) := by
  obtain ⟨d0, ds, rfl⟩ : ∃ d0 ds, d = d0 :: ds := by
    cases d with
    | nil => exact absurd rfl hd
    | cons a b => exact ⟨a, b, rfl⟩
  obtain ⟨n0, ns, rfl⟩ : ∃ n0 ns, n = n0 :: ns := by
    cases n with
    | nil => exact absurd rfl hn
    | cons a b => exact ⟨a, b, rfl⟩
  obtain ⟨u0, us, rfl⟩ : ∃ u0 us, u = u0 :: us := by
    cases u with
    | nil => exact absurd rfl hu
    | cons a b => exact ⟨a, b, rfl⟩
  have h1 : stripPrefixList "GPU ".toList
      ('G' :: 'P' :: 'U' :: ' ' ::
        ((d0 :: ds) ++ ':' :: ' ' :: ((n0 :: ns) ++ ' ' :: '(' :: 'U' :: 'U' :: 'I' :: 'D' :: ':' :: ' ' ::
          ((u0 :: us) ++ ')' :: rest)))) =
      some ((d0 :: ds) ++ ':' :: ' ' :: ((n0 :: ns) ++ ' ' :: '(' :: 'U' :: 'U' :: 'I' :: 'D' :: ':' :: ' ' ::
          ((u0 :: us) ++ ')' :: rest))) :=
    stripPrefixList_same "GPU ".toList _
  have hdig_t : ((d0 :: ds) ++ ':' :: ' ' :: ((n0 :: ns) ++ ' ' :: '(' :: 'U' :: 'U' :: 'I' :: 'D' :: ':' :: ' ' ::
        ((u0 :: us) ++ ')' :: rest))).takeWhile Char.isDigit = d0 :: ds :=
    takeWhile_middle _ _ _ _ hdall (by decide)
  have hdig_d : ((d0 :: ds) ++ ':' :: ' ' :: ((n0 :: ns) ++ ' ' :: '(' :: 'U' :: 'U' :: 'I' :: 'D' :: ':' :: ' ' ::
        ((u0 :: us) ++ ')' :: rest))).dropWhile Char.isDigit =
      ':' :: ' ' :: ((n0 :: ns) ++ ' ' :: '(' :: 'U' :: 'U' :: 'I' :: 'D' :: ':' :: ' ' ::
        ((u0 :: us) ++ ')' :: rest)) :=
    dropWhile_middle _ _ _ _ hdall (by decide)
  have h2 : stripPrefixList ": ".toList
      (':' :: ' ' :: ((n0 :: ns) ++ ' ' :: '(' :: 'U' :: 'U' :: 'I' :: 'D' :: ':' :: ' ' ::
        ((u0 :: us) ++ ')' :: rest))) =
      some ((n0 :: ns) ++ ' ' :: '(' :: 'U' :: 'U' :: 'I' :: 'D' :: ':' :: ' ' ::
        ((u0 :: us) ++ ')' :: rest)) :=
    stripPrefixList_same ": ".toList _
  have hnm_shape : (n0 :: ns) ++ ' ' :: '(' :: 'U' :: 'U' :: 'I' :: 'D' :: ':' :: ' ' ::
        ((u0 :: us) ++ ')' :: rest) =
      ((n0 :: ns) ++ [' ']) ++ '(' :: 'U' :: 'U' :: 'I' :: 'D' :: ':' :: ' ' ::
        ((u0 :: us) ++ ')' :: rest) := by
    simp
  have hnmem : ∀ c ∈ (n0 :: ns) ++ [' '], isNameChar c = true := by
    intro c hc
    rcases List.mem_append.mp hc with hc | hc
    · exact hnall c hc
    · simp only [List.mem_singleton] at hc
      subst hc
      decide
  have hnm_t : ((n0 :: ns) ++ ' ' :: '(' :: 'U' :: 'U' :: 'I' :: 'D' :: ':' :: ' ' ::
        ((u0 :: us) ++ ')' :: rest)).takeWhile isNameChar = (n0 :: ns) ++ [' '] := by
    rw [hnm_shape]
    exact takeWhile_middle _ _ _ _ hnmem (by decide)
  have hnm_d : ((n0 :: ns) ++ ' ' :: '(' :: 'U' :: 'U' :: 'I' :: 'D' :: ':' :: ' ' ::
        ((u0 :: us) ++ ')' :: rest)).dropWhile isNameChar =
      '(' :: 'U' :: 'U' :: 'I' :: 'D' :: ':' :: ' ' :: ((u0 :: us) ++ ')' :: rest) := by
    rw [hnm_shape]
    exact dropWhile_middle _ _ _ _ hnmem (by decide)
  have hlast : (((n0 :: ns) : List Char) ++ [' ']).getLast? = some ' ' :=
    List.getLast?_concat _
  have hdl : (((n0 :: ns) : List Char) ++ [' ']).dropLast = n0 :: ns := by
    rw [List.dropLast_concat]
  have h3 : stripPrefixList "(UUID: ".toList
      ('(' :: 'U' :: 'U' :: 'I' :: 'D' :: ':' :: ' ' :: ((u0 :: us) ++ ')' :: rest)) =
      some ((u0 :: us) ++ ')' :: rest) :=
    stripPrefixList_same "(UUID: ".toList _
  have hu_t : ((u0 :: us) ++ ')' :: rest).takeWhile isUuidChar = u0 :: us :=
    takeWhile_middle _ _ _ _ huall (by decide)
  have hu_d : ((u0 :: us) ++ ')' :: rest).dropWhile isUuidChar = ')' :: rest :=
    dropWhile_middle _ _ _ _ huall (by decide)
  have h4 : stripPrefixList ")".toList (')' :: rest) = some rest :=
    stripPrefixList_same ")".toList rest
  simp only [matchGpuLine, h1, hdig_t, hdig_d, h2, hnm_t, hnm_d, hlast, hdl, h3,
    hu_t, hu_d, h4]

/-- Stripping whitespace from a line that starts with a non-whitespace
character and contains a non-whitespace `)' before arbitrary trailing
text leaves the leading part intact: the result is that part followed by
some remainder of the trailing text. -/
theorem stripChars_wrap (mid x : List Char) :
    ∃ y, stripChars (('G' :: mid ++ [')']) ++ x) = ('G' :: mid ++ [')']) ++ y := by
  have hG : isPyWhitespace 'G' = false := by decide
  have hP : isPyWhitespace ')' = false := by decide
  have h1 : (('G' :: mid ++ [')']) ++ x).dropWhile isPyWhitespace
      = ('G' :: mid ++ [')']) ++ x := by
    rw [List.cons_append, List.cons_append, List.dropWhile_cons, hG]
    simp
  have h2 : (('G' :: mid ++ [')']) ++ x).reverse
      = x.reverse ++ ')' :: (mid.reverse ++ ['G']) := by
    simp [List.append_assoc]
  have h3 : (')' :: (mid.reverse ++ ['G'])).dropWhile isPyWhitespace
      = ')' :: (mid.reverse ++ ['G']) := by
    rw [List.dropWhile_cons, hP]
    simp
  by_cases hc : ((x.reverse.dropWhile isPyWhitespace).isEmpty : Bool) = true
  · refine ⟨[], ?_⟩
    unfold stripChars
    rw [h1, h2, List.dropWhile_append, if_pos hc, h3, List.append_nil]
    simp [List.append_assoc]
  · refine ⟨(x.reverse.dropWhile isPyWhitespace).reverse, ?_⟩
    unfold stripChars
    rw [h1, h2, List.dropWhile_append, if_neg hc]
    simp [List.append_assoc]

/-- C10: `NAME_PATTERN` is applied with `re.match`, anchoring only at the
start of the stripped line: every line whose prefix is a well-formed
`GPU <digits>: <name> (UUID: <uuid>)` clause parses into the regular
record for that clause — arbitrary trailing text after the closing
parenthesis is silently ignored — and never into the sentinel record. -/
theorem c10_prefix_anchored (d n u : List Char) (t : String)
    (hd : d ≠ []) (hdall : ∀ c ∈ d, c.isDigit = true)
    (hn : n ≠ []) (hnall : ∀ c ∈ n, isNameChar c = true)
    (hu : u ≠ []) (huall : ∀ c ∈ u, isUuidChar c = true) :
    NvidiaGPU.parse (String.mk ("GPU ".toList ++ d ++ ": ".toList ++ n ++
        " (UUID: ".toList ++ u ++ ")".toList ++ t.toList)) =
      ⟨(digitsToNat d : Int), String.mk n, String.mk u⟩ ∧
    NvidiaGPU.parse (String.mk ("GPU ".toList ++ d ++ ": ".toList ++ n ++
        " (UUID: ".toList ++ u ++ ")".toList ++ t.toList)) ≠ NvidiaGPU.sentinel := by
  have hshape : "GPU ".toList ++ d ++ ": ".toList ++ n ++ " (UUID: ".toList ++ u ++
      ")".toList ++ t.toList
      = ('G' :: ("PU ".toList ++ d ++ ": ".toList ++ n ++ " (UUID: ".toList ++ u) ++ [')'])
        ++ t.toList := by
    have e1 : "GPU ".toList = 'G' :: "PU ".toList := rfl
    have e4 : ")".toList = [')'] := rfl
    rw [e1, e4]
    simp [List.append_assoc]
  obtain ⟨y, hy⟩ := stripChars_wrap
    ("PU ".toList ++ d ++ ": ".toList ++ n ++ " (UUID: ".toList ++ u) t.toList
  have hmatch : matchGpuLine (stripChars ("GPU ".toList ++ d ++ ": ".toList ++ n ++
      " (UUID: ".toList ++ u ++ ")".toList ++ t.toList)) = some (digitsToNat d, n, u) := by
    rw [hshape, hy]
    have hshape2 :
        ('G' :: ("PU ".toList ++ d ++ ": ".toList ++ n ++ " (UUID: ".toList ++ u) ++ [')'])
          ++ y
        = 'G' :: 'P' :: 'U' :: ' ' :: (d ++ ':' :: ' ' ::
            (n ++ ' ' :: '(' :: 'U' :: 'U' :: 'I' :: 'D' :: ':' :: ' ' ::
              (u ++ ')' :: y))) := by
      have e2 : "PU ".toList = 'P' :: 'U' :: [' '] := rfl
      have e3 : ": ".toList = ':' :: [' '] := rfl
      have e5 : " (UUID: ".toList = ' ' :: '(' :: 'U' :: 'U' :: 'I' :: 'D' :: ':' :: [' '] := rfl
      rw [e2, e3, e5]
      simp [List.append_assoc]
    rw [hshape2]
    exact matchGpuLine_core d n u y hdall hnall huall hd hn hu
  have hparse : NvidiaGPU.parse (String.mk ("GPU ".toList ++ d ++ ": ".toList ++ n ++
      " (UUID: ".toList ++ u ++ ")".toList ++ t.toList)) =
      ⟨(digitsToNat d : Int), String.mk n, String.mk u⟩ := by
    have hpc : NvidiaGPU.parseChars ("GPU ".toList ++ d ++ ": ".toList ++ n ++
        " (UUID: ".toList ++ u ++ ")".toList ++ t.toList) =
        ⟨(digitsToNat d : Int), String.mk n, String.mk u⟩ := by
      unfold NvidiaGPU.parseChars
      rw [hmatch]
    exact hpc
  refine ⟨hparse, ?_⟩
  rw [hparse]
  intro hcon
  have h1 := congrArg NvidiaGPU.index hcon
  simp only [NvidiaGPU.sentinel] at h1
  omega

/-- C10 witness: a concrete well-formed GPU clause followed by trailing
text parses into the regular record, ignoring the trailing text. -/
theorem c10_prefix_anchored_witness :
    NvidiaGPU.parse "GPU 12: GeForce RTX 3080 (UUID: GPU-abc) extra text!!" =
      ⟨12, "GeForce RTX 3080", "GPU-abc"⟩ :=
  (c10_prefix_anchored "12".toList "GeForce RTX 3080".toList "GPU-abc".toList
    " extra text!!" (by decide) (by decide) (by decide) (by decide)
    (by decide) (by decide)).1
